import Mathlib

/-!
Shallow embedding of `vnext/Desktop.IntegrationTests/DesktopTestRunner.cpp`
(`Microsoft::React::Test::TestRunner::GetInstance`) together with the
collaborator shapes its call sites fix.  Queue allocation is modelled by an
explicit allocation counter so that two calls to the queue factory yield two
distinct queue handles, and the sequential statements of the function body
are mirrored by an event trace emitted in source order.
-/

namespace DesktopTestRunner

/-- A `MessageQueueThread` handle; `id` distinguishes separately allocated
queues (two `MakeJSQueueThread()` calls return two distinct objects). -/
structure MessageQueueThread where
  id : Nat
deriving DecidableEq, Repr

/-- `react::uwp::MakeJSQueueThread()`: allocates a fresh queue.  Modelled with
an explicit allocation counter threaded through the run. -/
def MakeJSQueueThread (alloc : Nat) : MessageQueueThread × Nat :=
  (MessageQueueThread.mk alloc, alloc + 1)

/-- A `CxxModule::Provider` (zero-argument module factory).  The built-in
providers mirror the seven lambdas in the source initializer list; caller
supplied providers are carried as an uninterpreted tag. -/
inductive Provider where
  | createAsyncStorageModule (storageKey : String)
  | webSocketModule
  | networkingModule
  | createTimingModule (queue : MessageQueueThread)
  | testAppStateModule
  | testUIManager
  | testDeviceInfoModule
  | external (tag : Nat)
deriving DecidableEq, Repr

/-- One entry of the module table:
`tuple<string, CxxModule::Provider, shared_ptr<MessageQueueThread>>`. -/
structure ModuleDescriptor where
  name : String
  provider : Provider
  queue : MessageQueueThread
deriving DecidableEq, Repr

/-- The runtime holder: `ChakraRuntimeHolder(devSettings, jsQueue, nullptr,
nullptr)`.  Its class definition is not under the sources studied here; per
the call site and spec §4.3 it binds the script-context queue.  The settings
back-pointer and the two null callbacks passed at the call site carry no
observable state for the properties below and are not modelled. -/
structure ChakraRuntimeHolder where
  queue : MessageQueueThread
deriving DecidableEq, Repr

/-- `facebook::react::DevSettings`, restricted to the fields the function
touches; `otherFields` stands for every remaining configuration field so
that "all other fields unchanged" is expressible. -/
structure DevSettings where
  jsiRuntimeHolder : Option ChakraRuntimeHolder := none
  platformName : String := ""
  otherFields : Nat := 0
deriving DecidableEq, Repr

/-- `TestInstanceCallback` (DesktopTestRunner.cpp lines 29-35): a subclass of
`facebook::react::InstanceCallback` with no members. -/
structure TestInstanceCallback where
deriving DecidableEq, Repr

/-- `TestInstanceCallback::onBatchComplete` has an empty body: state is
returned unchanged and no output is produced. -/
def TestInstanceCallback.onBatchComplete (c : TestInstanceCallback) :
    TestInstanceCallback × List String :=
  (c, [])

/-- `TestInstanceCallback::incrementPendingJSCalls` has an empty body. -/
def TestInstanceCallback.incrementPendingJSCalls (c : TestInstanceCallback) :
    TestInstanceCallback × List String :=
  (c, [])

/-- `TestInstanceCallback::decrementPendingJSCalls` has an empty body. -/
def TestInstanceCallback.decrementPendingJSCalls (c : TestInstanceCallback) :
    TestInstanceCallback × List String :=
  (c, [])

/-- The instance wrapper produced by `CreateReactInstance`, holding exactly
the arguments the call site passes in (root id, module table, fallback
provider, callback, both queues, settings) plus the list of bundle-load
requests issued so far. -/
structure ReactInstance where
  rootId : String
  modules : List ModuleDescriptor
  fallbackProvider : Option Provider
  callback : TestInstanceCallback
  jsQueue : MessageQueueThread
  nativeQueue : MessageQueueThread
  settings : DevSettings
  pendingLoads : List String
deriving DecidableEq, Repr

/-- `CreateReactInstance(...)`: constructs the instance wrapper from the
arguments the bridge passes; no bundle has been requested yet. -/
def CreateReactInstance (rootId : String) (modules : List ModuleDescriptor)
    (fallbackProvider : Option Provider) (cb : TestInstanceCallback)
    (jsQueue nativeQueue : MessageQueueThread) (settings : DevSettings) :
    ReactInstance :=
  { rootId := rootId, modules := modules, fallbackProvider := fallbackProvider,
    callback := cb, jsQueue := jsQueue, nativeQueue := nativeQueue,
    settings := settings, pendingLoads := [] }

/-- `instanceWrapper->loadBundle(bundle)`: fire-and-forget; the request is
recorded for asynchronous processing on the script queue and the call
returns immediately, with no success/failure signal. -/
def ReactInstance.loadBundle (inst : ReactInstance) (bundle : String) :
    ReactInstance :=
  { inst with pendingLoads := inst.pendingLoads ++ [bundle] }

/-- Modelled from the spec (§4.4/§7): the asynchronous outcome of the bundle
loads, observable only later through the instance, given an environment
oracle saying which bundles are valid.  `GetInstance` never consults this. -/
def ReactInstance.observeLoadResults (inst : ReactInstance)
    (valid : String → Bool) : List (String × Bool) :=
  inst.pendingLoads.map (fun b => (b, valid b))

/-- Modelled from the spec: `TestAppStateModule::name` is declared in
`TestModule.h`, which is outside the studied sources; the spec calls this
built-in the app-state module. -/
def TestAppStateModule.name : String := "AppState"

/-- Modelled from the spec: `TestDeviceInfoModule::name` is declared in
`TestModule.h`, outside the studied sources; the spec calls this built-in
the device-info module. -/
def TestDeviceInfoModule.name : String := "DeviceInfo"

/-- The seven built-in module descriptors, in the order of the initializer
list at DesktopTestRunner.cpp lines 46-75; every one is bound to
`nativeQueue`, and the Timing provider additionally captures it. -/
def builtinModules (nativeQueue : MessageQueueThread) :
    List ModuleDescriptor :=
  [ModuleDescriptor.mk "AsyncLocalStorage"
      (Provider.createAsyncStorageModule "ReactNativeAsyncStorage") nativeQueue,
   ModuleDescriptor.mk "WebSocketModule" Provider.webSocketModule nativeQueue,
   ModuleDescriptor.mk "Networking" Provider.networkingModule nativeQueue,
   ModuleDescriptor.mk "Timing" (Provider.createTimingModule nativeQueue)
      nativeQueue,
   ModuleDescriptor.mk TestAppStateModule.name Provider.testAppStateModule
      nativeQueue,
   ModuleDescriptor.mk "UIManager" Provider.testUIManager nativeQueue,
   ModuleDescriptor.mk TestDeviceInfoModule.name Provider.testDeviceInfoModule
      nativeQueue]

/-- The names of the seven built-ins, in table order. -/
def builtinNames : List String :=
  ["AsyncLocalStorage", "WebSocketModule", "Networking", "Timing",
   TestAppStateModule.name, "UIManager", TestDeviceInfoModule.name]

/-- The caller-facing handle type: the source returns
`shared_ptr<ITestInstance>(new DesktopTestInstance(move(instanceWrapper)))`;
the nullable shared pointer is modelled as `Option ITestInstance`. -/
inductive ITestInstance where
  | desktopTestInstance (wrapper : ReactInstance)
deriving DecidableEq, Repr

/-- One observable step of `GetInstance`, in the order the statements of the
function body execute. -/
inductive Event where
  | makeQueue (q : MessageQueueThread)
  | setHolder
  | buildTable
  | setPlatformName (s : String)
  | createInstance
  | loadBundle (b : String)
  | returnHandle
deriving DecidableEq, Repr

def Event.isSetHolder : Event → Bool
  | Event.setHolder => true
  | _ => false

def Event.isBuildTable : Event → Bool
  | Event.buildTable => true
  | _ => false

def Event.isSetPlatformName : Event → Bool
  | Event.setPlatformName _ => true
  | _ => false

def Event.isCreateInstance : Event → Bool
  | Event.createInstance => true
  | _ => false

def Event.isLoadBundle : Event → Bool
  | Event.loadBundle _ => true
  | _ => false

def Event.isReturnHandle : Event → Bool
  | Event.returnHandle => true
  | _ => false

/-- `TestRunner::GetInstance(jsBundleFile, cxxModules, devSettings)` —
DesktopTestRunner.cpp lines 37-95, statement by statement, with the queue
allocator threaded explicitly and each statement appending its event to the
trace in source order:
line 41: `auto nativeQueue = MakeJSQueueThread();`
line 42: `auto jsQueue = MakeJSQueueThread();`
line 44: `devSettings->jsiRuntimeHolder = make_shared<ChakraRuntimeHolder>(devSettings, jsQueue, nullptr, nullptr);`
lines 46-79: build `extraModules` = seven built-ins then the loop
             `for (auto &t : cxxModules) emplace_back(get<0>(t), get<1>(t), nativeQueue);`
line 82: `devSettings->platformName = "windesktop";`
lines 84-91: `CreateReactInstance("", move(extraModules), nullptr, make_unique<TestInstanceCallback>(), move(jsQueue), move(nativeQueue), move(devSettings));`
line 92: `instanceWrapper->loadBundle(move(jsBundleFile));`
line 94: `return shared_ptr<ITestInstance>(new DesktopTestInstance(move(instanceWrapper)));` -/
def GetInstance (jsBundleFile : String)
    (cxxModules : List (String × Provider))
    (devSettings : DevSettings) (alloc : Nat) :
    Option ITestInstance × List Event :=
  let nativeQueue := (MakeJSQueueThread alloc).1
  let alloc1 := (MakeJSQueueThread alloc).2
  let jsQueue := (MakeJSQueueThread alloc1).1
  let tr := [Event.makeQueue nativeQueue, Event.makeQueue jsQueue]
  let devSettings1 :=
    { devSettings with
        jsiRuntimeHolder := some (ChakraRuntimeHolder.mk jsQueue) }
  let tr := tr ++ [Event.setHolder]
  let extraModules := builtinModules nativeQueue ++
    cxxModules.map (fun t => ModuleDescriptor.mk t.1 t.2 nativeQueue)
  let tr := tr ++ [Event.buildTable]
  let devSettings2 := { devSettings1 with platformName := "windesktop" }
  let tr := tr ++ [Event.setPlatformName "windesktop"]
  let instanceWrapper := CreateReactInstance "" extraModules none
    TestInstanceCallback.mk jsQueue nativeQueue devSettings2
  let tr := tr ++ [Event.createInstance]
  let instanceWrapper1 := instanceWrapper.loadBundle jsBundleFile
  let tr := tr ++ [Event.loadBundle jsBundleFile]
  (some (ITestInstance.desktopTestInstance instanceWrapper1),
   tr ++ [Event.returnHandle])

/-- Projects the instance wrapper out of the returned handle; the null case
never occurs on the outputs of `GetInstance`, and maps to an inert record. -/
def handleInstance (r : Option ITestInstance) : ReactInstance :=
  match r with
  | some (ITestInstance.desktopTestInstance w) => w
  | none =>
    { rootId := "", modules := [], fallbackProvider := none,
      callback := TestInstanceCallback.mk,
      jsQueue := MessageQueueThread.mk 0,
      nativeQueue := MessageQueueThread.mk 0,
      settings := {}, pendingLoads := [] }

/-- Modelled from the spec (§3, §9): consumers of the table index modules by
name and observe the last write, i.e. the table is consumed as a name-keyed
map built by insertion where a later entry overwrites an earlier one. -/
def moduleByName (table : List ModuleDescriptor) (n : String) :
    Option ModuleDescriptor :=
  table.foldl (fun acc d => if d.name = n then some d else acc) none

/-! ### Helper lemmas -/

theorem moduleByName_foldl (l : List ModuleDescriptor) (n : String)
    (acc : Option ModuleDescriptor) :
    l.foldl (fun acc d => if d.name = n then some d else acc) acc =
      (l.reverse.find? (fun d => d.name == n)).or acc := by
  induction l generalizing acc with
  | nil => simp
  | cons a l ih =>
    rw [List.foldl_cons, ih, List.reverse_cons, List.find?_append,
      Option.or_assoc]
    by_cases h : a.name = n
    · simp [List.find?_cons, h]
    · simp [List.find?_cons, h]

/-- The name-indexed consumer view of a table returns the last entry
carrying the requested name. -/
theorem moduleByName_eq_find_reverse (l : List ModuleDescriptor)
    (n : String) :
    moduleByName l n = l.reverse.find? (fun d => d.name == n) := by
  rw [moduleByName, moduleByName_foldl, Option.or_none]

theorem moduleByName_append_of_mem (xs ys : List ModuleDescriptor)
    (n : String) (h : ∃ d ∈ ys, d.name = n) :
    moduleByName (xs ++ ys) n = moduleByName ys n := by
  obtain ⟨d, hd, hdn⟩ := h
  have hs : (ys.reverse.find? (fun d => d.name == n)).isSome := by
    rw [List.find?_isSome]
    exact ⟨d, List.mem_reverse.mpr hd, by simp [hdn]⟩
  obtain ⟨d0, hd0⟩ := Option.isSome_iff_exists.mp hs
  have h1 : moduleByName (xs ++ ys) n =
      (ys.reverse.find? (fun d => d.name == n)).or (moduleByName xs n) := by
    rw [moduleByName, List.foldl_append, moduleByName_foldl]
    rfl
  rw [h1, hd0, moduleByName_eq_find_reverse ys n, hd0]
  rfl

theorem moduleByName_some_mem (l : List ModuleDescriptor)
    (d : ModuleDescriptor) (n : String) (h : moduleByName l n = some d) :
    d ∈ l ∧ d.name = n := by
  rw [moduleByName_eq_find_reverse] at h
  refine ⟨List.mem_reverse.mp (List.mem_of_find?_eq_some h), ?_⟩
  have := List.find?_some h
  simpa using this

theorem moduleByName_isSome (l : List ModuleDescriptor) (n : String)
    (h : ∃ d ∈ l, d.name = n) : (moduleByName l n).isSome := by
  rw [moduleByName_eq_find_reverse, List.find?_isSome]
  obtain ⟨d, hd, hdn⟩ := h
  exact ⟨d, List.mem_reverse.mpr hd, by simp [hdn]⟩

/-- Unfolding of the module table stored in the returned instance: the
seven built-ins, then the caller extras in input order, all bound to the
native queue allocated first. -/
theorem getInstance_modules (f : String) (m : List (String × Provider))
    (ds : DevSettings) (a : Nat) :
    (handleInstance (GetInstance f m ds a).1).modules =
      builtinModules (MessageQueueThread.mk a) ++
        m.map (fun t => ModuleDescriptor.mk t.1 t.2 (MessageQueueThread.mk a)) :=
  rfl

/-- Every descriptor of a builtins-plus-extras table is bound to the queue
the table was built with. -/
theorem table_queue_eq (m : List (String × Provider))
    (nq : MessageQueueThread) :
    ∀ d ∈ builtinModules nq ++
        m.map (fun t => ModuleDescriptor.mk t.1 t.2 nq),
      d.queue = nq := by
  intro d hd
  rcases List.mem_append.mp hd with h | h
  · simp only [builtinModules, List.mem_cons, List.not_mem_nil, or_false] at h
    rcases h with rfl | rfl | rfl | rfl | rfl | rfl | rfl <;> rfl
  · rcases List.mem_map.mp h with ⟨t, _, rfl⟩
    rfl

/-! ### Claim theorems -/

/-- C2: for every well-formed settings argument (the embedding's
`DevSettings` value models a non-null settings object), `GetInstance` is a
total function — no exception unwinds across its boundary, matching the
`noexcept` declaration — and the handle it returns is non-null. -/
theorem c2_getInstance_total_nonnull (f : String)
    (m : List (String × Provider)) (ds : DevSettings) (a : Nat) :
    ((GetInstance f m ds a).1).isSome = true :=
  rfl

/-- C3: with an empty extras list the module table is exactly the built-in
set, order preserved: 7 entries with the built-in names (storage,
websocket, networking, timing, app-state, UI-manager, device-info) and
nothing else. -/
theorem c3_empty_extras_table (f : String) (ds : DevSettings) (a : Nat) :
    (handleInstance (GetInstance f [] ds a).1).modules =
        builtinModules (MessageQueueThread.mk a) ∧
      (handleInstance (GetInstance f [] ds a).1).modules.length = 7 ∧
      (handleInstance (GetInstance f [] ds a).1).modules.map
          ModuleDescriptor.name = builtinNames :=
  ⟨rfl, rfl, rfl⟩

/-- C5: the settings stored in the constructed instance are exactly the
caller's settings with the runtime holder (bound to the script queue, the
second queue allocated) and the platform name "windesktop" injected; every
other field is unchanged, and nothing mutates them afterward — the record
equality is against the caller-supplied value itself. -/
theorem c5_settings_mutation (f : String) (m : List (String × Provider))
    (ds : DevSettings) (a : Nat) :
    (handleInstance (GetInstance f m ds a).1).settings =
      { ds with
          jsiRuntimeHolder :=
            some (ChakraRuntimeHolder.mk (MessageQueueThread.mk (a + 1))),
          platformName := "windesktop" } :=
  rfl

/-- C8: the runtime holder is bound to the script queue — the second queue
the factory returns — not the native queue, and it is stored into the
settings before the instance is constructed (its store event precedes the
construction event in the trace). -/
theorem c8_holder_bound_to_script_queue (f : String)
    (m : List (String × Provider)) (ds : DevSettings) (a : Nat) :
    (handleInstance (GetInstance f m ds a).1).settings.jsiRuntimeHolder =
        some (ChakraRuntimeHolder.mk
          (handleInstance (GetInstance f m ds a).1).jsQueue) ∧
      (handleInstance (GetInstance f m ds a).1).jsQueue =
        (MakeJSQueueThread (MakeJSQueueThread a).2).1 ∧
      (handleInstance (GetInstance f m ds a).1).nativeQueue =
        (MakeJSQueueThread a).1 ∧
      (handleInstance (GetInstance f m ds a).1).jsQueue ≠
        (handleInstance (GetInstance f m ds a).1).nativeQueue ∧
      (GetInstance f m ds a).2.findIdx Event.isSetHolder <
        (GetInstance f m ds a).2.findIdx Event.isCreateInstance := by
  refine ⟨rfl, rfl, rfl, ?_, ?_⟩
  · intro h
    have : a + 1 = a := congrArg MessageQueueThread.id h
    omega
  · show 2 < 5
    decide

/-- C9: every call passes a freshly constructed `TestInstanceCallback` to
instance construction, and all three callback operations are no-ops: the
callback state is returned unchanged and no output is produced. -/
theorem c9_callback_noops (f : String) (m : List (String × Provider))
    (ds : DevSettings) (a : Nat) (c : TestInstanceCallback) :
    (handleInstance (GetInstance f m ds a).1).callback =
        TestInstanceCallback.mk ∧
      c.onBatchComplete = (c, []) ∧
      c.incrementPendingJSCalls = (c, []) ∧
      c.decrementPendingJSCalls = (c, []) :=
  ⟨rfl, rfl, rfl, rfl⟩

/-- C10: the native queue and the script queue are distinct objects even
though both come from the same factory; every descriptor in the table
(built-in or extra) is bound to the native queue, and none is bound to the
script queue. -/
theorem c10_two_queues_module_binding (f : String)
    (m : List (String × Provider)) (ds : DevSettings) (a : Nat) :
    (handleInstance (GetInstance f m ds a).1).nativeQueue ≠
        (handleInstance (GetInstance f m ds a).1).jsQueue ∧
      (∀ d ∈ (handleInstance (GetInstance f m ds a).1).modules,
        d.queue = (handleInstance (GetInstance f m ds a).1).nativeQueue) ∧
      (∀ d ∈ (handleInstance (GetInstance f m ds a).1).modules,
        d.queue ≠ (handleInstance (GetInstance f m ds a).1).jsQueue) := by
  have hq : ∀ d ∈ (handleInstance (GetInstance f m ds a).1).modules,
      d.queue = MessageQueueThread.mk a := by
    intro d hd
    rw [getInstance_modules] at hd
    exact table_queue_eq m (MessageQueueThread.mk a) d hd
  refine ⟨?_, hq, ?_⟩
  · intro h
    have : a = a + 1 := congrArg MessageQueueThread.id h
    omega
  · intro d hd h
    rw [hq d hd] at h
    have : a = a + 1 := congrArg MessageQueueThread.id h
    omega

/-- C4 counterexample: the claim asserts the platform identifier is
injected into the settings before the module table is built; on the
concrete run `GetInstance "main.bundle" [] {} 0` the platform-name
assignment occurs at trace position 4, strictly after the table build at
position 3, so the claimed order is false. -/
theorem c4_counterexample :
    ¬ ((GetInstance "main.bundle" [] {} 0).2.findIdx
          Event.isSetPlatformName <
        (GetInstance "main.bundle" [] {} 0).2.findIdx Event.isBuildTable) :=
  by decide

/-- C4 (amended): `GetInstance` performs its steps in this order — both
queues are allocated first, before the holder or any module descriptor is
created; the runtime holder is constructed and injected into settings
before the module table is built; the fixed platform identifier is
injected into settings after the module table is built and before the
instance is constructed; the instance is constructed after the table;
`loadBundle` is issued after instance construction; the handle is returned
last. -/
theorem c4_step_order_amended (f : String) (m : List (String × Provider))
    (ds : DevSettings) (a : Nat) :
    (GetInstance f m ds a).2 =
        [Event.makeQueue (MessageQueueThread.mk a),
         Event.makeQueue (MessageQueueThread.mk (a + 1)),
         Event.setHolder, Event.buildTable,
         Event.setPlatformName "windesktop", Event.createInstance,
         Event.loadBundle f, Event.returnHandle] ∧
      (GetInstance f m ds a).2.findIdx Event.isSetHolder = 2 ∧
      (GetInstance f m ds a).2.findIdx Event.isBuildTable = 3 ∧
      (GetInstance f m ds a).2.findIdx Event.isSetPlatformName = 4 ∧
      (GetInstance f m ds a).2.findIdx Event.isCreateInstance = 5 ∧
      (GetInstance f m ds a).2.findIdx Event.isLoadBundle = 6 ∧
      (GetInstance f m ds a).2.findIdx Event.isReturnHandle = 7 :=
  ⟨rfl, rfl, rfl, rfl, rfl, rfl, rfl⟩

/-- C7: `loadBundle` is issued exactly once, with exactly the
caller-supplied bundle identifier, after instance construction and before
the handle is returned; the call only records the request (its outcome is
observable only later, through an environment oracle the bootstrap never
consults), the handle is always non-null, and varying the bundle
identifier changes nothing in the returned instance except the recorded
request — no validity check influences the result. -/
theorem c7_loadBundle_once_fire_and_forget (f : String)
    (m : List (String × Provider)) (ds : DevSettings) (a : Nat) :
    (GetInstance f m ds a).2.filter Event.isLoadBundle =
        [Event.loadBundle f] ∧
      (GetInstance f m ds a).2.findIdx Event.isCreateInstance <
        (GetInstance f m ds a).2.findIdx Event.isLoadBundle ∧
      (GetInstance f m ds a).2.findIdx Event.isLoadBundle <
        (GetInstance f m ds a).2.findIdx Event.isReturnHandle ∧
      (handleInstance (GetInstance f m ds a).1).pendingLoads = [f] ∧
      ((GetInstance f m ds a).1).isSome = true ∧
      (∀ valid : String → Bool,
        (handleInstance (GetInstance f m ds a).1).observeLoadResults valid =
          [(f, valid f)]) ∧
      (∀ f2 : String,
        handleInstance (GetInstance f2 m ds a).1 =
          { handleInstance (GetInstance f m ds a).1 with
              pendingLoads := [f2] }) := by
  refine ⟨rfl, ?_, ?_, rfl, rfl, fun v => rfl, fun f2 => rfl⟩
  · show 5 < 6
    decide
  · show 6 < 7
    decide

/-- C1: for every non-empty extras list the table has `7 + n` entries —
the seven built-ins first, in order and with their originally assigned
queue, then the extras in input order, every entry bound to the native
queue. -/
theorem c1_table_with_nonempty_extras (f : String)
    (m : List (String × Provider)) (ds : DevSettings) (a : Nat)
    (h : m ≠ []) :
    (handleInstance (GetInstance f m ds a).1).modules.length =
        7 + m.length ∧
      (handleInstance (GetInstance f m ds a).1).modules.take 7 =
        builtinModules (MessageQueueThread.mk a) ∧
      (builtinModules (MessageQueueThread.mk a)).map ModuleDescriptor.name =
        builtinNames ∧
      (handleInstance (GetInstance f m ds a).1).modules.drop 7 =
        m.map (fun t => ModuleDescriptor.mk t.1 t.2
          (MessageQueueThread.mk a)) ∧
      (∀ d ∈ (handleInstance (GetInstance f m ds a).1).modules,
        d.queue = MessageQueueThread.mk a) := by
  refine ⟨?_, rfl, rfl, rfl, ?_⟩
  · rw [getInstance_modules]
    simp [builtinModules]
    omega
  · intro d hd
    rw [getInstance_modules] at hd
    exact table_queue_eq m (MessageQueueThread.mk a) d hd

/-- Witness for C1 at the concrete input of the spec scenario: one extra
module named "Custom", bundle "main.bundle", default settings. -/
theorem c1_witness :
    (([("Custom", Provider.external 0)] : List (String × Provider)) ≠
        []) ∧
      ((handleInstance (GetInstance "main.bundle"
            [("Custom", Provider.external 0)] {} 0).1).modules.length =
          7 + ([("Custom", Provider.external 0)] :
            List (String × Provider)).length ∧
        (handleInstance (GetInstance "main.bundle"
            [("Custom", Provider.external 0)] {} 0).1).modules.take 7 =
          builtinModules (MessageQueueThread.mk 0) ∧
        (builtinModules (MessageQueueThread.mk 0)).map
            ModuleDescriptor.name = builtinNames ∧
        (handleInstance (GetInstance "main.bundle"
            [("Custom", Provider.external 0)] {} 0).1).modules.drop 7 =
          ([("Custom", Provider.external 0)] :
            List (String × Provider)).map
            (fun t => ModuleDescriptor.mk t.1 t.2
              (MessageQueueThread.mk 0)) ∧
        (∀ d ∈ (handleInstance (GetInstance "main.bundle"
            [("Custom", Provider.external 0)] {} 0).1).modules,
          d.queue = MessageQueueThread.mk 0)) :=
  ⟨List.cons_ne_nil ("Custom", Provider.external 0) [],
    c1_table_with_nonempty_extras "main.bundle"
      [("Custom", Provider.external 0)] {} 0
      (List.cons_ne_nil ("Custom", Provider.external 0) [])⟩

/-- C6: when an extra descriptor reuses a built-in name the build still
appends it after the built-ins without rejecting or removing anything
(builtins-then-extras order and `7 + n` size are preserved), the
name-indexed consumer view resolves the name within the extras segment,
the resolved descriptor is an extra carrying that name, and the consumer
view returns the last table entry carrying the name. -/
theorem c6_name_collision_last_wins (f : String)
    (m : List (String × Provider)) (ds : DevSettings) (a : Nat)
    (n : String) (hb : n ∈ builtinNames) (he : n ∈ m.map Prod.fst) :
    (handleInstance (GetInstance f m ds a).1).modules =
        builtinModules (MessageQueueThread.mk a) ++
          m.map (fun t => ModuleDescriptor.mk t.1 t.2
            (MessageQueueThread.mk a)) ∧
      (handleInstance (GetInstance f m ds a).1).modules.length =
        7 + m.length ∧
      moduleByName (handleInstance (GetInstance f m ds a).1).modules n =
        moduleByName (m.map (fun t => ModuleDescriptor.mk t.1 t.2
          (MessageQueueThread.mk a))) n ∧
      (∃ d, moduleByName
            (handleInstance (GetInstance f m ds a).1).modules n = some d ∧
          d ∈ m.map (fun t => ModuleDescriptor.mk t.1 t.2
            (MessageQueueThread.mk a)) ∧
          d.name = n) ∧
      moduleByName (handleInstance (GetInstance f m ds a).1).modules n =
        (handleInstance (GetInstance f m ds a).1).modules.reverse.find?
          (fun d => d.name == n) := by
  have hex : ∃ d ∈ m.map (fun t => ModuleDescriptor.mk t.1 t.2
      (MessageQueueThread.mk a)), d.name = n := by
    obtain ⟨t, ht, htn⟩ := List.mem_map.mp he
    exact ⟨ModuleDescriptor.mk t.1 t.2 (MessageQueueThread.mk a),
      List.mem_map.mpr ⟨t, ht, rfl⟩, htn⟩
  have hmod := getInstance_modules f m ds a
  have hres : moduleByName
      (handleInstance (GetInstance f m ds a).1).modules n =
      moduleByName (m.map (fun t => ModuleDescriptor.mk t.1 t.2
        (MessageQueueThread.mk a))) n := by
    rw [hmod]
    exact moduleByName_append_of_mem _ _ n hex
  refine ⟨hmod, ?_, hres, ?_, moduleByName_eq_find_reverse _ n⟩
  · rw [hmod]
    simp [builtinModules]
    omega
  · have hsome := moduleByName_isSome _ n hex
    obtain ⟨d, hd⟩ := Option.isSome_iff_exists.mp hsome
    obtain ⟨hdm, hdn⟩ := moduleByName_some_mem _ d n hd
    exact ⟨d, by rw [hres, hd], hdm, hdn⟩

/-- Witness for C6 at the spec's collision scenario: one extra module
reusing the built-in name "Timing". -/
theorem c6_witness :
    ("Timing" ∈ builtinNames) ∧
      ("Timing" ∈ ([("Timing", Provider.external 3)] :
        List (String × Provider)).map Prod.fst) ∧
      ((handleInstance (GetInstance "b" [("Timing", Provider.external 3)]
            {} 0).1).modules =
          builtinModules (MessageQueueThread.mk 0) ++
            ([("Timing", Provider.external 3)] :
              List (String × Provider)).map
              (fun t => ModuleDescriptor.mk t.1 t.2
                (MessageQueueThread.mk 0)) ∧
        (handleInstance (GetInstance "b" [("Timing", Provider.external 3)]
            {} 0).1).modules.length =
          7 + ([("Timing", Provider.external 3)] :
            List (String × Provider)).length ∧
        moduleByName (handleInstance (GetInstance "b"
            [("Timing", Provider.external 3)] {} 0).1).modules "Timing" =
          moduleByName (([("Timing", Provider.external 3)] :
            List (String × Provider)).map
            (fun t => ModuleDescriptor.mk t.1 t.2
              (MessageQueueThread.mk 0))) "Timing" ∧
        (∃ d, moduleByName (handleInstance (GetInstance "b"
              [("Timing", Provider.external 3)] {} 0).1).modules "Timing" =
              some d ∧
            d ∈ ([("Timing", Provider.external 3)] :
              List (String × Provider)).map
              (fun t => ModuleDescriptor.mk t.1 t.2
                (MessageQueueThread.mk 0)) ∧
            d.name = "Timing") ∧
        moduleByName (handleInstance (GetInstance "b"
            [("Timing", Provider.external 3)] {} 0).1).modules "Timing" =
          (handleInstance (GetInstance "b"
            [("Timing", Provider.external 3)]
            {} 0).1).modules.reverse.find?
            (fun d => d.name == "Timing")) :=
  ⟨by decide, by decide,
    c6_name_collision_last_wins "b" [("Timing", Provider.external 3)] {} 0
      "Timing" (by decide) (by decide)⟩

end DesktopTestRunner
